import Mathlib

/-!
Verification of the MMA8452Q accelerometer driver (`src/main/MMA8452Q.cpp`).

The driver talks to the sensor over I2C (the Arduino `Wire` transport). We
embed it in two layers:

* a transport layer, where a read is parameterised by the byte queue the
  transport actually delivered (`readRegisterViaWire`, `readRegistersViaWire`),
  mirroring the `Wire.requestFrom` / `Wire.available` / `Wire.read` calls; and
* a mock-device layer (`Machine`), where the transport is fully responsive:
  the device is a register file, a register read returns the stored byte, and
  every `writeRegister` call is both applied to the register file and appended
  to a write log, so that theorems can speak about which register writes an
  operation issues and in which order.

All register values are bytes; `readRegister` reduces the stored value mod 256
because `Wire.read` returns a single byte.
-/

namespace MMA8452Q

/-- Modelled from the spec: the register addresses come from the header
`MMA8452Q.h`, which is not part of the repository source; the spec reproduces
the hardware register map ("addresses fixed by the hardware"). These are the
MMA8452Q data-sheet addresses; the theorems below depend only on which
addresses are distinct, not on their numeric values. -/
def STATUS_MMA8452Q : Nat := 0x00

def OUT_X_MSB : Nat := 0x01

def WHO_AM_I : Nat := 0x0D

def XYZ_DATA_CFG : Nat := 0x0E

def PL_STATUS : Nat := 0x10

def PL_CFG : Nat := 0x11

def PL_COUNT : Nat := 0x12

def PULSE_CFG : Nat := 0x21

def PULSE_SRC : Nat := 0x22

def PULSE_THSX : Nat := 0x23

def PULSE_THSY : Nat := 0x24

def PULSE_THSZ : Nat := 0x25

def PULSE_TMLT : Nat := 0x26

def PULSE_LTCY : Nat := 0x27

def PULSE_WIND : Nat := 0x28

def CTRL_REG1 : Nat := 0x2A

/-- Modelled from the spec: the scale enumerators of the missing header. The
code uses them both as the register code via `fsr >> 2` ("00 = 2G, 01 = 4A,
10 = 8G") and numerically as the range in g (`(float)(scale)`), so their
values are 2, 4, 8, matching the spec's `range_in_g ∈ {2,4,8}`. -/
def SCALE_2G : Nat := 2

def SCALE_4G : Nat := 4

def SCALE_8G : Nat := 8

/-- Single-register read at the transport layer (`MMA8452Q::readRegister`,
lines 223-235): after `Wire.requestFrom(address, 1)`, `resp` is the queue of
bytes the transport delivered. If a byte is available (`Wire.available()`)
the first byte is returned (`Wire.read()`); otherwise the function returns 0. -/
def readRegisterViaWire (resp : List Nat) : Nat :=
  match resp with
  | [] => 0
  | b :: _ => b

/-- Burst read at the transport layer (`MMA8452Q::readRegisters`, lines
242-253): `resp` is the byte queue delivered after
`Wire.requestFrom(address, len)` and `buffer` the destination array. The copy
loop `buffer[x] = Wire.read()` runs only when `Wire.available() == len`;
otherwise the function returns with `buffer` untouched. -/
def readRegistersViaWire (resp : List Nat) (len : Nat) (buffer : List Nat) :
    List Nat :=
  if resp.length = len then
    (List.range len).foldl (fun b x => b.set x (resp.getD x 0)) buffer
  else buffer

/-- Mock device and bus: the device register file together with the log of
register writes the driver has issued, in order. -/
structure Machine where
  regs : Nat → Nat
  writes : List (Nat × Nat)

/-- Register write (`MMA8452Q::writeRegister`): update the register file and
append the write to the log. -/
def writeRegister (m : Machine) (reg data : Nat) : Machine :=
  { regs := fun r => if r = reg then data else m.regs r,
    writes := m.writes ++ [(reg, data)] }

/-- Register read against the responsive mock transport: the device returns
the stored byte (`Wire.read` yields one byte, hence the reduction mod 256). -/
def readRegister (m : Machine) (reg : Nat) : Nat := m.regs reg % 256

/-- Machine with a single interesting register, for concrete evaluations. -/
def singleReg (reg val : Nat) : Machine :=
  { regs := fun r => if r = reg then val else 0, writes := [] }

/-- Standby (`MMA8452Q::standby`, lines 184-187): clear bit 0 of CTRL_REG1.
On a byte `c`, the C expression `c & ~(0x01)` equals `c &&& 0xFE`. -/
def standby (m : Machine) : Machine :=
  let c := readRegister m CTRL_REG1
  writeRegister m CTRL_REG1 (c &&& 0xFE)

/-- Activate (`MMA8452Q::active`, lines 193-196): set bit 0 of CTRL_REG1. -/
def active (m : Machine) : Machine :=
  let c := readRegister m CTRL_REG1
  writeRegister m CTRL_REG1 (c ||| 0x01)

/-- Scale configuration (`MMA8452Q::setScale`, lines 77-83): read-modify-write
of XYZ_DATA_CFG, masking the two low bits and inserting `fsr >> 2`. -/
def setScale (m : Machine) (fsr : Nat) : Machine :=
  let cfg := readRegister m XYZ_DATA_CFG
  writeRegister m XYZ_DATA_CFG ((cfg &&& 0xFC) ||| (fsr >>> 2))

/-- Output-data-rate configuration (`MMA8452Q::setODR`, lines 91-97):
read-modify-write of CTRL_REG1, masking bits 3-5 and inserting `odr << 3`. -/
def setODR (m : Machine) (odr : Nat) : Machine :=
  let ctrl := readRegister m CTRL_REG1
  writeRegister m CTRL_REG1 ((ctrl &&& 0xC7) ||| (odr <<< 3))

/-- Portrait/landscape setup (`MMA8452Q::setupPL`, lines 157-165): set the
enable bit of PL_CFG, then write the debounce count 0x50. -/
def setupPL (m : Machine) : Machine :=
  let m1 := writeRegister m PL_CFG (readRegister m PL_CFG ||| 0x40)
  writeRegister m1 PL_COUNT 0x50

/-- Tap setup (`MMA8452Q::setupTap`, lines 108-137): for each axis whose
threshold byte has the top bit clear, accumulate the axis enable bits into
`temp` and write the threshold register; then write `temp | 0x40` to
PULSE_CFG and the three fixed timing registers. -/
def setupTap (m : Machine) (xThs yThs zThs : Nat) : Machine :=
  let temp : Nat := 0
  let px := if xThs &&& 0x80 = 0 then
      (temp ||| 0x3, writeRegister m PULSE_THSX xThs) else (temp, m)
  let py := if yThs &&& 0x80 = 0 then
      (px.1 ||| 0xC, writeRegister px.2 PULSE_THSY yThs) else px
  let pz := if zThs &&& 0x80 = 0 then
      (py.1 ||| 0x30, writeRegister py.2 PULSE_THSZ zThs) else py
  let m4 := writeRegister pz.2 PULSE_CFG (pz.1 ||| 0x40)
  let m5 := writeRegister m4 PULSE_TMLT 0x30
  let m6 := writeRegister m5 PULSE_LTCY 0xA0
  writeRegister m6 PULSE_WIND 0xFF

/-- Tap status (`MMA8452Q::readTap`, lines 144-151): read PULSE_SRC; if the
event-active bit (bit 7) is set return the low 7 bits, else 0. -/
def readTap (m : Machine) : Nat :=
  let tapStat := readRegister m PULSE_SRC
  if tapStat &&& 0x80 ≠ 0 then tapStat &&& 0x7F else 0

/-- Modelled from the spec: the orientation return codes of the missing
header. `readPL` returns either a 2-bit LAPO code or the distinguished
LOCKOUT value; LOCKOUT is 0x40 (the lockout bit of PL_STATUS). -/
def LOCKOUT : Nat := 0x40

/-- Orientation status (`MMA8452Q::readPL`, lines 172-179): read PL_STATUS;
if the Z-tilt lockout bit (bit 6) is set return LOCKOUT, else the LAPO field
`(plStat & 0x6) >> 1`. -/
def readPL (m : Machine) : Nat :=
  let plStat := readRegister m PL_STATUS
  if plStat &&& 0x40 ≠ 0 then LOCKOUT else (plStat &&& 0x6) >>> 1

/-- Data-ready check (`MMA8452Q::available`, lines 68-70): bit 3 of the
status register. -/
def available (m : Machine) : Nat :=
  (readRegister m STATUS_MMA8452Q &&& 0x08) >>> 3

/-- Driver handle state used by `init`: the stored scale (class member
`scale`, assigned on the first line of `init`). -/
structure Handle where
  address : Nat
  scale : Nat

/-- Initialization (`MMA8452Q::init`, lines 16-39): store the requested scale
into the handle, read WHO_AM_I, fail (returning 0) unless it reads 0x2A, else
run the configuration sequence and activate, returning 1. `Wire.begin()`
issues no register write and has no effect on the model. -/
def init (h : Handle) (m : Machine) (fsr odr : Nat) : Nat × Handle × Machine :=
  let h1 : Handle := { h with scale := fsr }
  let c := readRegister m WHO_AM_I
  if c ≠ 0x2A then (0, h1, m)
  else
    let m1 := standby m
    let m2 := setScale m1 h1.scale
    let m3 := setODR m2 odr
    let m4 := setupPL m3
    let m5 := setupTap m4 0x80 0x80 0x08
    let m6 := active m5
    (1, h1, m6)

/-- Cast of an integer to a C `short` (16-bit two's complement), as in
`(short)(rawData[0]<<8 | rawData[1])` on the AVR target. -/
def toShort (n : Nat) : Int :=
  if n % 65536 < 32768 then ((n % 65536 : Nat) : Int)
  else ((n % 65536 : Nat) : Int) - 65536

/-- Axis decoding in `MMA8452Q::read` (lines 55-57):
`((short)(hi<<8 | lo)) >> 4`, where the right shift of the (possibly
negative) short is arithmetic, i.e. floor division by 16. -/
def decodeAxis (hi lo : Nat) : Int :=
  (toShort ((hi <<< 8) ||| lo)).fdiv 16

/-- Calibration in `MMA8452Q::read` (lines 58-60):
`cx = (float)x / (float)(1<<11) * (float)(scale)`. For every value produced
there (`|x| ≤ 2048`, scale in {2,4,8}) each float operation is exact — the
quotient and product are dyadic rationals whose significands fit in far fewer
than 24 bits (see `RepresentableF32`) and IEEE-754 rounding returns an exact
result unchanged — so the computation is embedded as exact rational
arithmetic. -/
def calibrated (raw : Int) (scale : Nat) : ℚ :=
  (raw : ℚ) / 2 ^ 11 * (scale : ℚ)

/-- Representability in IEEE-754 single precision: a rational is a binary32
value when it is `m * 2 ^ e` with `|m| < 2 ^ 24` and `e` in the binary32
exponent range. Round-to-nearest returns any representable exact result
unchanged. -/
def RepresentableF32 (q : ℚ) : Prop :=
  ∃ m e : ℤ, m.natAbs < 2 ^ 24 ∧ -149 ≤ e ∧ e ≤ 104 ∧ q = (m : ℚ) * (2 : ℚ) ^ e

/-- C1: for every pair of raw bytes (high, low), the sample decoding used by
`read()` — combine the bytes big-endian into a 16-bit value, then
arithmetic-right-shift by 4 with sign extension — yields a signed integer in
[-2048, 2047]; bytes (0x7F, 0xF0) decode to 2047 and bytes (0x80, 0x00)
decode to -2048. -/
theorem decodeAxis_range (hi lo : Nat) (_hhi : hi < 256) (_hlo : lo < 256) :
    (-2048 ≤ decodeAxis hi lo ∧ decodeAxis hi lo ≤ 2047) ∧
    decodeAxis 0x7F 0xF0 = 2047 ∧ decodeAxis 0x80 0x00 = -2048 := by
  have hv : -32768 ≤ toShort ((hi <<< 8) ||| lo) ∧
      toShort ((hi <<< 8) ||| lo) ≤ 32767 := by
    unfold toShort
    have hm : ((hi <<< 8) ||| lo) % 65536 < 65536 :=
      Nat.mod_lt _ (by norm_num)
    split <;> omega
  refine ⟨?_, by decide, by decide⟩
  unfold decodeAxis
  rw [Int.fdiv_eq_ediv _ (by norm_num)]
  omega

/-- Witness for `decodeAxis_range` at bytes (0x12, 0x34). -/
theorem decodeAxis_range_witness :
    (-2048 ≤ decodeAxis 0x12 0x34 ∧ decodeAxis 0x12 0x34 ≤ 2047) ∧
    decodeAxis 0x7F 0xF0 = 2047 ∧ decodeAxis 0x80 0x00 = -2048 :=
  decodeAxis_range 0x12 0x34 (by decide) (by decide)

/-- C3: a fixed-count burst read that receives fewer bytes than requested
leaves the destination buffer completely unmodified (no partial fill, no zero
fill), and a single-register read that receives no byte returns 0,
indistinguishable from a register that legitimately holds 0. -/
theorem readRegisters_short_leaves_buffer (resp buffer : List Nat) (len : Nat)
    (hshort : resp.length < len) :
    readRegistersViaWire resp len buffer = buffer ∧
    readRegisterViaWire [] = 0 ∧ readRegisterViaWire [0] = 0 := by
  refine ⟨?_, rfl, rfl⟩
  unfold readRegistersViaWire
  rw [if_neg (by omega)]

/-- Witness for `readRegisters_short_leaves_buffer`: a 6-byte request that
received only 3 bytes leaves the buffer as it was. -/
theorem readRegisters_short_leaves_buffer_witness :
    readRegistersViaWire [1, 2, 3] 6 [9, 9, 9, 9, 9, 9] = [9, 9, 9, 9, 9, 9] ∧
    readRegisterViaWire [] = 0 ∧ readRegisterViaWire [0] = 0 :=
  readRegisters_short_leaves_buffer [1, 2, 3] [9, 9, 9, 9, 9, 9] 6 (by decide)

/-- C6: `readPL` returns LOCKOUT whenever bit 6 of the orientation-status
byte is set, regardless of any other bits; otherwise it returns the 2-bit
code extracted from bits 1-2, which is one of the four orientation states
(a value below 4). -/
theorem readPL_lockout_priority (b : Nat) (m : Machine) (hb : b < 256)
    (hreg : m.regs PL_STATUS = b) :
    (b.testBit 6 = true → readPL m = LOCKOUT) ∧
    (b.testBit 6 = false →
      readPL m = (b &&& 0x6) >>> 1 ∧ readPL m < 4) := by
  have hb' : b % 256 = b := Nat.mod_eq_of_lt hb
  have hand : b &&& 0x40 ≠ 0 ↔ b.testBit 6 = true := by
    have h40 : (0x40 : Nat) = 2 ^ 6 := by norm_num
    rw [h40, Nat.and_two_pow]
    cases hbit : b.testBit 6 <;> simp
  constructor
  · intro h
    simp only [readPL, readRegister, hreg, hb']
    rw [if_pos (hand.mpr h)]
  · intro h
    have hno : ¬(b &&& 0x40 ≠ 0) := by rw [hand, h]; simp
    simp only [readPL, readRegister, hreg, hb']
    rw [if_neg hno]
    refine ⟨rfl, ?_⟩
    have h1 : b &&& 0x6 ≤ 6 := Nat.and_le_right
    have h2 : (b &&& 0x6) >>> 1 = (b &&& 0x6) / 2 := by
      rw [Nat.shiftRight_eq_div_pow]
    omega

/-- Witness for `readPL_lockout_priority` at status byte 0x45 (lockout bit
set together with arbitrary other bits). -/
theorem readPL_lockout_priority_witness :
    ((0x45 : Nat).testBit 6 = true →
      readPL (singleReg PL_STATUS 0x45) = LOCKOUT) ∧
    ((0x45 : Nat).testBit 6 = false →
      readPL (singleReg PL_STATUS 0x45) = ((0x45 : Nat) &&& 0x6) >>> 1 ∧
        readPL (singleReg PL_STATUS 0x45) < 4) :=
  readPL_lockout_priority 0x45 (singleReg PL_STATUS 0x45) (by decide) (by decide)

/-- C7: `readTap` returns 0 (none) when the event-active bit (bit 7) of the
pulse-source byte is unset, and otherwise returns the low 7 bits; byte 0x00
yields 0 and byte 0x83 yields 0x03. -/
theorem readTap_event_bit (b : Nat) (m : Machine) (hb : b < 256)
    (hreg : m.regs PULSE_SRC = b) :
    (b.testBit 7 = false → readTap m = 0) ∧
    (b.testBit 7 = true → readTap m = b &&& 0x7F) ∧
    readTap (singleReg PULSE_SRC 0x00) = 0 ∧
    readTap (singleReg PULSE_SRC 0x83) = 0x03 := by
  have hb' : b % 256 = b := Nat.mod_eq_of_lt hb
  have hand : b &&& 0x80 ≠ 0 ↔ b.testBit 7 = true := by
    have h80 : (0x80 : Nat) = 2 ^ 7 := by norm_num
    rw [h80, Nat.and_two_pow]
    cases hbit : b.testBit 7 <;> simp
  refine ⟨fun h => ?_, fun h => ?_, by decide, by decide⟩
  · have hno : ¬(b &&& 0x80 ≠ 0) := by rw [hand, h]; simp
    simp only [readTap, readRegister, hreg, hb']
    rw [if_neg hno]
  · simp only [readTap, readRegister, hreg, hb']
    rw [if_pos (hand.mpr h)]

/-- Witness for `readTap_event_bit` at pulse-source byte 0x83. -/
theorem readTap_event_bit_witness :
    ((0x83 : Nat).testBit 7 = false →
      readTap (singleReg PULSE_SRC 0x83) = 0) ∧
    ((0x83 : Nat).testBit 7 = true →
      readTap (singleReg PULSE_SRC 0x83) = (0x83 : Nat) &&& 0x7F) ∧
    readTap (singleReg PULSE_SRC 0x00) = 0 ∧
    readTap (singleReg PULSE_SRC 0x83) = 0x03 :=
  readTap_event_bit 0x83 (singleReg PULSE_SRC 0x83) (by decide) (by decide)

/-- C9: `init` assigns the requested full-scale range to the handle's stored
scale field before the identity check, so the handle's configured scale
equals the requested range argument even when `init` returns failure. -/
theorem init_assigns_scale (h : Handle) (m : Machine) (fsr odr : Nat) :
    ((init h m fsr odr).2.1).scale = fsr := by
  by_cases hc : readRegister m WHO_AM_I = 0x2A <;> simp [init, hc]

/-- C10: `readTap` returns the same value, 0, for pulse-source byte 0x80
(event-active bit set, all low 7 bits zero) as for byte 0x00 (no event), so
such a tap event is indistinguishable from no tap at all. -/
theorem readTap_masked_event_ambiguous :
    readTap (singleReg PULSE_SRC 0x80) = readTap (singleReg PULSE_SRC 0x00) ∧
    readTap (singleReg PULSE_SRC 0x80) = 0 := by
  decide

set_option maxRecDepth 4096 in
/-- C4: for every prior value of XYZ_DATA_CFG and every range in {2g,4g,8g},
`setScale` performs a read-modify-write that clears only the 2 low bits and
inserts the range code there; all other bits of the register (the byte
shifted right by 2) are preserved, including across the consecutive calls
setScale(4g) followed by setScale(8g). -/
theorem setScale_preserves_other_bits (m : Machine) (fsr : Nat)
    (hfsr : fsr = SCALE_2G ∨ fsr = SCALE_4G ∨ fsr = SCALE_8G) :
    ((setScale m fsr).regs XYZ_DATA_CFG
        = (readRegister m XYZ_DATA_CFG &&& 0xFC) ||| (fsr >>> 2)) ∧
    ((setScale m fsr).regs XYZ_DATA_CFG >>> 2
        = readRegister m XYZ_DATA_CFG >>> 2) ∧
    ((setScale m fsr).regs XYZ_DATA_CFG &&& 0x3 = fsr >>> 2) ∧
    ((setScale (setScale m SCALE_4G) SCALE_8G).regs XYZ_DATA_CFG >>> 2
        = readRegister m XYZ_DATA_CFG >>> 2) := by
  have hc : m.regs XYZ_DATA_CFG % 256 < 256 := Nat.mod_lt _ (by norm_num)
  have hk : fsr >>> 2 < 3 := by
    rcases hfsr with h | h | h <;> subst h <;> decide
  have key : ∀ c < 256, ∀ k < 3,
      (((c &&& 0xFC) ||| k) >>> 2 = c >>> 2) ∧
      (((c &&& 0xFC) ||| k) &&& 0x3 = k) := by decide
  have key2 : ∀ c < 256,
      (((((c &&& 0xFC) ||| 1) % 256) &&& 0xFC) ||| 2) >>> 2 = c >>> 2 := by
    decide
  have e1 : (setScale m fsr).regs XYZ_DATA_CFG
      = ((m.regs XYZ_DATA_CFG % 256) &&& 0xFC) ||| (fsr >>> 2) := by
    simp [setScale, writeRegister, readRegister]
  have e2 : (setScale (setScale m SCALE_4G) SCALE_8G).regs XYZ_DATA_CFG
      = ((((((m.regs XYZ_DATA_CFG % 256) &&& 0xFC) ||| 1) % 256) &&& 0xFC)
          ||| 2) := by
    simp [setScale, writeRegister, readRegister, SCALE_4G, SCALE_8G]
  refine ⟨by rw [e1]; rfl, ?_, ?_, ?_⟩
  · rw [e1]
    exact (key _ hc _ hk).1
  · rw [e1]
    exact (key _ hc _ hk).2
  · rw [e2]
    exact key2 _ hc

/-- Witness for `setScale_preserves_other_bits` at prior byte 0xAB, range 4g. -/
theorem setScale_preserves_other_bits_witness :
    ((setScale (singleReg XYZ_DATA_CFG 0xAB) SCALE_4G).regs XYZ_DATA_CFG
        = (readRegister (singleReg XYZ_DATA_CFG 0xAB) XYZ_DATA_CFG &&& 0xFC)
          ||| (SCALE_4G >>> 2)) ∧
    ((setScale (singleReg XYZ_DATA_CFG 0xAB) SCALE_4G).regs XYZ_DATA_CFG >>> 2
        = readRegister (singleReg XYZ_DATA_CFG 0xAB) XYZ_DATA_CFG >>> 2) ∧
    ((setScale (singleReg XYZ_DATA_CFG 0xAB) SCALE_4G).regs XYZ_DATA_CFG &&& 0x3
        = SCALE_4G >>> 2) ∧
    ((setScale (setScale (singleReg XYZ_DATA_CFG 0xAB) SCALE_4G)
          SCALE_8G).regs XYZ_DATA_CFG >>> 2
        = readRegister (singleReg XYZ_DATA_CFG 0xAB) XYZ_DATA_CFG >>> 2) :=
  setScale_preserves_other_bits (singleReg XYZ_DATA_CFG 0xAB) SCALE_4G
    (Or.inr (Or.inl rfl))

/-- C5: `setupTap` writes an axis's threshold register exactly when that
axis's byte has the high bit clear, in exactly that case accumulating that
axis's 2-bit enable field; it then writes the accumulator OR 0x40 (the
single/double-tap mode bit) to PULSE_CFG followed by the three fixed timing
writes (0x30, 0xA0, 0xFF). With x=y=0x80 and z=0x08 this yields no x or y
threshold write and no x or y enable bits, while z is enabled (bits 0x30)
and 0x08 is written to PULSE_THSZ. -/
theorem setupTap_write_sequence (m : Machine) (xThs yThs zThs : Nat) :
    ((setupTap m xThs yThs zThs).writes =
      m.writes
        ++ (if xThs &&& 0x80 = 0 then [(PULSE_THSX, xThs)] else [])
        ++ (if yThs &&& 0x80 = 0 then [(PULSE_THSY, yThs)] else [])
        ++ (if zThs &&& 0x80 = 0 then [(PULSE_THSZ, zThs)] else [])
        ++ [(PULSE_CFG,
              ((if xThs &&& 0x80 = 0 then 0x3 else 0) |||
                (if yThs &&& 0x80 = 0 then 0xC else 0) |||
                (if zThs &&& 0x80 = 0 then 0x30 else 0)) ||| 0x40),
            (PULSE_TMLT, 0x30), (PULSE_LTCY, 0xA0), (PULSE_WIND, 0xFF)]) ∧
    (setupTap (singleReg PULSE_CFG 0) 0x80 0x80 0x08).writes =
      [(PULSE_THSZ, 0x08), (PULSE_CFG, 0x70), (PULSE_TMLT, 0x30),
        (PULSE_LTCY, 0xA0), (PULSE_WIND, 0xFF)] := by
  constructor
  · by_cases hx : xThs &&& 0x80 = 0 <;> by_cases hy : yThs &&& 0x80 = 0 <;>
      by_cases hz : zThs &&& 0x80 = 0 <;>
      simp [setupTap, writeRegister, hx, hy, hz]
  · decide

/-- C8: for every decoded raw axis value and configured range in {2,4,8}, the
calibrated value computed by `read()` equals raw / 2048 × range_in_g; the two
intermediate float results are exactly representable in binary32 (so the
float computation is exact), and raw 2048 at scale 4g yields exactly 4.0 g. -/
theorem calibrated_exact (raw : Int) (scale : Nat)
    (hlo : -2048 ≤ raw) (hhi : raw ≤ 2047)
    (hs : scale = SCALE_2G ∨ scale = SCALE_4G ∨ scale = SCALE_8G) :
    (calibrated raw scale = (raw : ℚ) * (scale : ℚ) / 2048) ∧
    RepresentableF32 ((raw : ℚ) / 2 ^ 11) ∧
    RepresentableF32 (calibrated raw scale) ∧
    calibrated 2048 SCALE_4G = 4 := by
  have hpow : ((2 : ℚ) ^ 11)⁻¹ = (2 : ℚ) ^ (-11 : ℤ) := by
    rw [zpow_neg]
    norm_num
  refine ⟨?_, ?_, ?_, ?_⟩
  · unfold calibrated
    norm_num
    ring
  · refine ⟨raw, -11, by omega, by norm_num, by norm_num, ?_⟩
    rw [div_eq_mul_inv, hpow]
  · refine ⟨raw * (scale : ℤ), -11, ?_, by norm_num, by norm_num, ?_⟩
    · rw [Int.natAbs_mul]
      rcases hs with h | h | h <;> subst h <;>
        simp [SCALE_2G, SCALE_4G, SCALE_8G] <;> omega
    · unfold calibrated
      push_cast
      rw [div_eq_mul_inv, hpow]
      ring
  · unfold calibrated
    norm_num [SCALE_4G]

/-- Witness for `calibrated_exact` at raw 1024, scale 8g. -/
theorem calibrated_exact_witness :
    (calibrated 1024 SCALE_8G = (1024 : ℚ) * ((SCALE_8G : Nat) : ℚ) / 2048) ∧
    RepresentableF32 ((1024 : ℚ) / 2 ^ 11) ∧
    RepresentableF32 (calibrated 1024 SCALE_8G) ∧
    calibrated 2048 SCALE_4G = 4 :=
  calibrated_exact 1024 SCALE_8G (by norm_num) (by norm_num)
    (Or.inr (Or.inr rfl))

/-- Write trace of `active`: one write to CTRL_REG1 with bit 0 set. -/
theorem active_writes_eq (m : Machine) :
    (active m).writes
      = m.writes ++ [(CTRL_REG1, readRegister m CTRL_REG1 ||| 0x01)] := rfl

/-- Register effect of `active` on CTRL_REG1. -/
theorem active_regs_ctrl (m : Machine) :
    (active m).regs CTRL_REG1 = readRegister m CTRL_REG1 ||| 0x01 := by
  simp [active, writeRegister]

/-- C2: `init` returns success (1) if and only if the WHO_AM_I register reads
0x2A; when the identity check fails it returns 0 and issues no register
write, and when it succeeds the last register write of the initialization
sequence targets CTRL_REG1 with a value whose bit 0 is set, leaving the
device's control register with bit 0 = 1 (ACTIVE mode). -/
theorem init_identity_check_and_activation (h : Handle) (m : Machine)
    (fsr odr : Nat) :
    ((init h m fsr odr).1 = 1 ↔ readRegister m WHO_AM_I = 0x2A) ∧
    (readRegister m WHO_AM_I ≠ 0x2A →
      (init h m fsr odr).2.2.writes = m.writes) ∧
    (readRegister m WHO_AM_I = 0x2A →
      (∃ v, ((init h m fsr odr).2.2.writes).getLast? = some (CTRL_REG1, v) ∧
        v.testBit 0 = true) ∧
      ((init h m fsr odr).2.2.regs CTRL_REG1).testBit 0 = true) := by
  by_cases hc : readRegister m WHO_AM_I = 0x2A
  · have hinit : init h m fsr odr =
        (1, { h with scale := fsr },
          active (setupTap (setupPL (setODR (setScale (standby m) fsr) odr))
            0x80 0x80 0x08)) := by
      simp [init, hc]
    refine ⟨?_, fun hn => absurd hc hn, fun _ => ?_⟩
    · rw [hinit]
      simp [hc]
    · rw [hinit]
      refine ⟨⟨readRegister (setupTap (setupPL (setODR (setScale (standby m)
          fsr) odr)) 0x80 0x80 0x08) CTRL_REG1 ||| 0x01, ?_, ?_⟩, ?_⟩
      · rw [active_writes_eq]
        exact List.getLast?_concat _
      · simp [Nat.testBit_or]
      · rw [active_regs_ctrl]
        simp [Nat.testBit_or]
  · simp [init, hc]

/-- Witness for `init_identity_check_and_activation`: a mock device whose
WHO_AM_I register reads 0x2A. -/
theorem init_identity_check_and_activation_witness :
    ((init ⟨0x1D, 0⟩ (singleReg WHO_AM_I 0x2A) SCALE_2G 0).1 = 1 ↔
      readRegister (singleReg WHO_AM_I 0x2A) WHO_AM_I = 0x2A) ∧
    (readRegister (singleReg WHO_AM_I 0x2A) WHO_AM_I ≠ 0x2A →
      (init ⟨0x1D, 0⟩ (singleReg WHO_AM_I 0x2A) SCALE_2G 0).2.2.writes
        = (singleReg WHO_AM_I 0x2A).writes) ∧
    (readRegister (singleReg WHO_AM_I 0x2A) WHO_AM_I = 0x2A →
      (∃ v, ((init ⟨0x1D, 0⟩ (singleReg WHO_AM_I 0x2A) SCALE_2G
            0).2.2.writes).getLast? = some (CTRL_REG1, v) ∧
        v.testBit 0 = true) ∧
      ((init ⟨0x1D, 0⟩ (singleReg WHO_AM_I 0x2A) SCALE_2G
          0).2.2.regs CTRL_REG1).testBit 0 = true) :=
  init_identity_check_and_activation ⟨0x1D, 0⟩ (singleReg WHO_AM_I 0x2A)
    SCALE_2G 0

end MMA8452Q
